import Mathlib

/-!
Verification of the exactobar usage-tracking core.

Shallow embedding of the Rust sources:
  - exactobar-providers/src/claude/api.rs   (OAuth usage client, canonical model)
  - exactobar-providers/src/synthetic/{strategies,descriptor,error}.rs
  - exactobar-app/src/updater.rs            (update checker, release-asset match)
  - exactobar-app/src/icon/mod.rs           (bar renderer clamp)
  - exactobar-store/src/keychain.rs         (credential store)

Rust `f64`/`f32` values are embedded as `ℚ`: every operation the embedded
code performs on them (comparison with 0, subtraction from 100, division by
100, min/max) is exact on the rationals that occur, so no rounding behaviour
is lost. Machine strings are Lean `String`s. Fallible operations are
`Option`/`Except`.
-/

namespace Exactobar

/-! ## Canonical usage window (claude/api.rs, struct UsageWindow) -/

/-- Embedding of `UsageWindow` from claude/api.rs: utilization plus the
alternative fields `remaining` and `used_percent`, and the raw reset
timestamp string. -/
structure UsageWindow where
  utilization : ℚ
  resets_at : Option String
  remaining : Option ℚ
  used_percent : Option ℚ
deriving Repr, DecidableEq

namespace UsageWindow

/-- Embedding of `UsageWindow::get_used_percent` (claude/api.rs lines
153-165): utilization wins when strictly positive, else the explicit
`used_percent` field, else `100 - remaining`, else `0`. No clamping is
performed. -/
def get_used_percent (w : UsageWindow) : ℚ :=
  if w.utilization > 0 then w.utilization
  else
    match w.used_percent with
    | some used => used
    | none =>
      match w.remaining with
      | some r => 100 - r
      | none => 0

end UsageWindow

/-- C1 counterexample: a window whose only populated field is
`used_percent = 150` makes `get_used_percent` return `150`, outside
`[0, 100]`, so the claimed clamping does not happen in the code; and a
window with the non-zero utilization `-5` yields `30` from the explicit
`used_percent` field, so non-zero utilization does not win — only strictly
positive utilization does. -/
theorem c1_counterexample :
    (UsageWindow.get_used_percent
      { utilization := 0, resets_at := none, remaining := none,
        used_percent := some 150 } = 150 ∧
    ¬ (UsageWindow.get_used_percent
      { utilization := 0, resets_at := none, remaining := none,
        used_percent := some 150 } ≤ 100)) ∧
    (UsageWindow.get_used_percent
      { utilization := -5, resets_at := none, remaining := none,
        used_percent := some 30 } = 30 ∧
    UsageWindow.get_used_percent
      { utilization := -5, resets_at := none, remaining := none,
        used_percent := some 30 } ≠ -5) := by
  refine ⟨⟨rfl, ?_⟩, ⟨?_, ?_⟩⟩
  · simp only [UsageWindow.get_used_percent]
    norm_num
  · simp only [UsageWindow.get_used_percent]
    norm_num
  · simp only [UsageWindow.get_used_percent]
    norm_num

/-- C1 (amended): `get_used_percent` resolves with the precedence
strictly-positive utilization, else explicit `used_percent`, else
`100 - remaining`, else `0`; the result is not clamped and can lie outside
`[0, 100]`. -/
theorem c1_used_percent_precedence (w : UsageWindow) :
    (0 < w.utilization → w.get_used_percent = w.utilization) ∧
    (w.utilization ≤ 0 → ∀ u, w.used_percent = some u → w.get_used_percent = u) ∧
    (w.utilization ≤ 0 → w.used_percent = none → ∀ r, w.remaining = some r →
      w.get_used_percent = 100 - r) ∧
    (w.utilization ≤ 0 → w.used_percent = none → w.remaining = none →
      w.get_used_percent = 0) := by
  refine ⟨?_, ?_, ?_, ?_⟩
  · intro h
    simp [UsageWindow.get_used_percent, h]
  · intro h u hu
    simp [UsageWindow.get_used_percent, hu, not_lt.mpr h]
  · intro h hu r hr
    simp [UsageWindow.get_used_percent, hu, hr, not_lt.mpr h]
  · intro h hu hr
    simp [UsageWindow.get_used_percent, hu, hr, not_lt.mpr h]

/-- C1 witness: the amended precedence evaluated on concrete windows for all
four branches. -/
theorem c1_used_percent_precedence_witness :
    UsageWindow.get_used_percent
      { utilization := 6, resets_at := none, remaining := some 40,
        used_percent := some 20 } = 6 ∧
    UsageWindow.get_used_percent
      { utilization := 0, resets_at := none, remaining := some 40,
        used_percent := some 20 } = 20 ∧
    UsageWindow.get_used_percent
      { utilization := 0, resets_at := none, remaining := some 40,
        used_percent := none } = 60 ∧
    UsageWindow.get_used_percent
      { utilization := 0, resets_at := none, remaining := none,
        used_percent := none } = 0 := by
  refine ⟨?_, ?_, ?_, ?_⟩
  · exact (c1_used_percent_precedence _).1 (by norm_num)
  · exact (c1_used_percent_precedence _).2.1 (by norm_num) 20 rfl
  · have h := (c1_used_percent_precedence
      { utilization := 0, resets_at := none, remaining := some 40,
        used_percent := none }).2.2.1 (by norm_num) rfl 40 rfl
    rw [h]; norm_num
  · exact (c1_used_percent_precedence _).2.2.2 (by norm_num) rfl rfl

/-! ## Claude OAuth client errors and HTTP status mapping (claude/api.rs) -/

/-- Error type of the Claude OAuth client, constructors as used in
claude/api.rs (`ClaudeError::AuthenticationFailed`, `MissingScope`,
`ApiError`, `ParseError`, `HttpError`). -/
inductive ClaudeError where
  | AuthenticationFailed (msg : String)
  | MissingScope (msg : String)
  | ApiError (msg : String)
  | ParseError (msg : String)
  | HttpError (msg : String)
deriving Repr, DecidableEq

/-- Modelled from the spec: claude/error.rs is not under src/, so the
fatal/recoverable classification comes from spec section 7:
`AuthenticationFailed` and `MissingScope` are fatal; `ApiError`,
`ParseError` and transport errors are recoverable. -/
def ClaudeError.is_fatal : ClaudeError → Bool
  | .AuthenticationFailed _ => true
  | .MissingScope _ => true
  | _ => false

/-- Embedding of `StatusCode::is_success` from the http crate: the status
lies in the 2xx range. -/
def statusIsSuccess (status : Nat) : Bool :=
  200 ≤ status && status < 300

/-- Embedding of the HTTP-status dispatch of `ClaudeApiClient::fetch_usage`
(claude/api.rs lines 264-280): 401 is rejected as `AuthenticationFailed`,
403 as `MissingScope`, any other non-2xx as `ApiError` carrying the status
and body. `display` embeds the Display impl of `http::StatusCode` (an
external library rendering, e.g. "401 Unauthorized"). `none` means the
status check passes and the body is parsed. -/
def fetch_usage_status_error (display : Nat → String) (status : Nat)
    (body : String) : Option ClaudeError :=
  if status = 401 then
    some (.AuthenticationFailed "OAuth token rejected")
  else if status = 403 then
    some (.MissingScope "user:profile")
  else if !statusIsSuccess status then
    some (.ApiError ("HTTP " ++ display status ++ ": " ++ body))
  else none

/-- Embedding of the HTTP-status dispatch of
`ClaudeApiClient::fetch_usage_with_token` (claude/api.rs lines 336-347):
401 is rejected as `AuthenticationFailed`; any other non-2xx — with no
special case for 403 — as `ApiError`. -/
def fetch_usage_with_token_status_error (display : Nat → String)
    (status : Nat) (body : String) : Option ClaudeError :=
  if status = 401 then
    some (.AuthenticationFailed "Token rejected")
  else if !statusIsSuccess status then
    some (.ApiError ("HTTP " ++ display status ++ ": " ++ body))
  else none

/-- C2 counterexample: `fetch_usage_with_token` maps HTTP 403 to a
recoverable `ApiError`, not to the fatal `MissingScope` claimed for both
fetch functions. -/
theorem c2_counterexample :
    fetch_usage_with_token_status_error (fun n => toString n) 403 "forbidden"
      = some (ClaudeError.ApiError "HTTP 403: forbidden") ∧
    ClaudeError.is_fatal (ClaudeError.ApiError "HTTP 403: forbidden") = false := by
  exact ⟨rfl, rfl⟩

/-- C2 (amended): `fetch_usage` maps 401 to fatal `AuthenticationFailed`,
403 to fatal `MissingScope`, and every other non-2xx status to recoverable
`ApiError` carrying the status and body; `fetch_usage_with_token` maps 401
to fatal `AuthenticationFailed` and every other non-2xx status — including
403 — to recoverable `ApiError`. -/
theorem c2_status_error_mapping (display : Nat → String) (status : Nat)
    (body : String) :
    (fetch_usage_status_error display 401 body
        = some (ClaudeError.AuthenticationFailed "OAuth token rejected") ∧
      ClaudeError.is_fatal (ClaudeError.AuthenticationFailed "OAuth token rejected")
        = true) ∧
    (fetch_usage_status_error display 403 body
        = some (ClaudeError.MissingScope "user:profile") ∧
      ClaudeError.is_fatal (ClaudeError.MissingScope "user:profile") = true) ∧
    (status ≠ 401 → status ≠ 403 → statusIsSuccess status = false →
      fetch_usage_status_error display status body
          = some (ClaudeError.ApiError ("HTTP " ++ display status ++ ": " ++ body)) ∧
        ClaudeError.is_fatal
          (ClaudeError.ApiError ("HTTP " ++ display status ++ ": " ++ body)) = false) ∧
    (fetch_usage_with_token_status_error display 401 body
        = some (ClaudeError.AuthenticationFailed "Token rejected") ∧
      ClaudeError.is_fatal (ClaudeError.AuthenticationFailed "Token rejected")
        = true) ∧
    (status ≠ 401 → statusIsSuccess status = false →
      fetch_usage_with_token_status_error display status body
          = some (ClaudeError.ApiError ("HTTP " ++ display status ++ ": " ++ body)) ∧
        ClaudeError.is_fatal
          (ClaudeError.ApiError ("HTTP " ++ display status ++ ": " ++ body)) = false) ∧
    (statusIsSuccess status = true →
      fetch_usage_status_error display status body = none ∧
      fetch_usage_with_token_status_error display status body = none) := by
  refine ⟨⟨rfl, rfl⟩, ⟨rfl, rfl⟩, ?_, ⟨rfl, rfl⟩, ?_, ?_⟩
  · intro h401 h403 hfail
    exact ⟨by simp [fetch_usage_status_error, h401, h403, hfail], rfl⟩
  · intro h401 hfail
    exact ⟨by simp [fetch_usage_with_token_status_error, h401, hfail], rfl⟩
  · intro hok
    have h401 : status ≠ 401 := by
      intro h; rw [h] at hok; simp [statusIsSuccess] at hok
    have h403 : status ≠ 403 := by
      intro h; rw [h] at hok; simp [statusIsSuccess] at hok
    constructor
    · simp [fetch_usage_status_error, h401, h403, hok]
    · simp [fetch_usage_with_token_status_error, h401, hok]

/-- C2 witness: the amended mapping evaluated at status 500 with body
"oops". -/
theorem c2_status_error_mapping_witness :
    fetch_usage_status_error (fun n => toString n) 500 "oops"
        = some (ClaudeError.ApiError "HTTP 500: oops") ∧
    fetch_usage_with_token_status_error (fun n => toString n) 500 "oops"
        = some (ClaudeError.ApiError "HTTP 500: oops") := by
  have h := c2_status_error_mapping (fun n => toString n) 500 "oops"
  exact ⟨(h.2.2.1 (by decide) (by decide) (by decide)).1,
         (h.2.2.2.2.1 (by decide) (by decide)).1⟩

/-! ## OAuth response shapes and the canonical snapshot (claude/api.rs) -/

/-- Embedding of `OAuthUsageWindow` from claude/api.rs. -/
structure OAuthUsageWindow where
  utilization : ℚ
  resets_at : Option String
deriving Repr, DecidableEq

/-- Embedding of `AccountInfo` from claude/api.rs. -/
structure AccountInfo where
  email : Option String
  name : Option String
  plan : Option String
  organization : Option String
deriving Repr, DecidableEq

/-- Embedding of `ExtraUsage` from claude/api.rs. -/
structure ExtraUsage where
  is_enabled : Option Bool
  used_credits : Option ℚ
  monthly_limit : Option ℚ
  currency : Option String
deriving Repr, DecidableEq

/-- Embedding of `OAuthUsageResponse` from claude/api.rs. -/
structure OAuthUsageResponse where
  five_hour : Option OAuthUsageWindow
  seven_day : Option OAuthUsageWindow
  seven_day_opus : Option OAuthUsageWindow
  seven_day_oauth_apps : Option OAuthUsageWindow
deriving Repr, DecidableEq

/-- Embedding of `UsageApiResponse` from claude/api.rs. -/
structure UsageApiResponse where
  five_hour : Option UsageWindow
  seven_day : Option UsageWindow
  seven_day_sonnet : Option UsageWindow
  extra_usage : Option ExtraUsage
  account : Option AccountInfo
deriving Repr, DecidableEq

/-- Embedding of `OAuthUsageResponse::into_usage_api_response` (claude/api.rs
lines 90-115): each OAuth window becomes a unified window with only
`utilization` populated; `seven_day_opus` is mapped onto the
`seven_day_sonnet` slot; `extra_usage` and `account` are absent. -/
def OAuthUsageResponse.into_usage_api_response
    (resp : OAuthUsageResponse) : UsageApiResponse :=
  { five_hour := resp.five_hour.map fun w =>
      { utilization := w.utilization, resets_at := w.resets_at,
        remaining := none, used_percent := none },
    seven_day := resp.seven_day.map fun w =>
      { utilization := w.utilization, resets_at := w.resets_at,
        remaining := none, used_percent := none },
    seven_day_sonnet := resp.seven_day_opus.map fun w =>
      { utilization := w.utilization, resets_at := w.resets_at,
        remaining := none, used_percent := none },
    extra_usage := none,
    account := none }

/-- Embedding of `UsageWindow::get_resets_at` (claude/api.rs lines 168-175):
the raw string, when present, is run through the RFC 3339 parser. `parse`
embeds `DateTime::parse_from_rfc3339` of the external chrono library;
timestamps are `Int` (epoch instants). -/
def UsageWindow.get_resets_at (parse : String → Option Int)
    (w : UsageWindow) : Option Int :=
  w.resets_at.bind parse

/-- Modelled from the spec: the exactobar-core crate is not under src/, so
the provider enumeration lists the kinds the embedded sources name
(`ProviderKind::Claude` in claude/api.rs, `ProviderKind::Synthetic` in
synthetic/descriptor.rs). -/
inductive ProviderKind where
  | Claude
  | Synthetic
deriving Repr, DecidableEq

/-- Modelled from the spec: fetch source tag of spec section 3 — one of
CLI, OAuth, API key, Web (exactobar-core is not under src/). -/
inductive FetchSource where
  | Cli
  | OAuth
  | ApiKey
  | Web
deriving Repr, DecidableEq

/-- Modelled from the spec: login method of the provider identity (spec
section 3); only the `OAuth` constructor is exercised by the embedded
sources (exactobar-core is not under src/). -/
inductive LoginMethod where
  | OAuth
deriving Repr, DecidableEq

/-- Modelled from the spec and from the field accesses in claude/api.rs:
optional account metadata (exactobar-core is not under src/). -/
structure ProviderIdentity where
  provider : ProviderKind
  account_email : Option String
  plan_name : Option String
  account_organization : Option String
  login_method : Option LoginMethod
deriving Repr, DecidableEq

/-- Embedding of `ProviderIdentity::new`: all metadata absent. -/
def ProviderIdentity.new (kind : ProviderKind) : ProviderIdentity :=
  { provider := kind, account_email := none, plan_name := none,
    account_organization := none, login_method := none }

/-- Modelled from the spec and from the field writes in claude/api.rs: the
canonical usage window of spec section 3 (exactobar-core is not under
src/). -/
structure CoreUsageWindow where
  used_percent : ℚ
  window_minutes : Option Nat
  resets_at : Option Int
  reset_description : Option String
deriving Repr, DecidableEq

/-- Modelled from the spec and from the field writes in claude/api.rs: the
canonical snapshot of spec section 3 — up to three ordered windows, an
optional identity and a fetch-source tag (exactobar-core is not under
src/). -/
structure UsageSnapshot where
  primary : Option CoreUsageWindow
  secondary : Option CoreUsageWindow
  tertiary : Option CoreUsageWindow
  identity : Option ProviderIdentity
  fetch_source : FetchSource
deriving Repr, DecidableEq

/-- Modelled from the spec: `UsageSnapshot::new` starts with no windows and
no identity; the initial fetch-source tag is immediately overwritten by
every converter in the embedded sources, so its value is unobservable
here. -/
def UsageSnapshot.new : UsageSnapshot :=
  { primary := none, secondary := none, tertiary := none,
    identity := none, fetch_source := FetchSource.Cli }

/-- Embedding of `UsageApiResponse::to_snapshot` (claude/api.rs lines
373-420): the 5-hour window becomes `primary` with 300 minutes, the 7-day
window `secondary` with 10080 minutes, the sonnet/opus window `tertiary`
with 10080 minutes; the identity is attached exactly when `account` is
present; the fetch source is OAuth. -/
def UsageApiResponse.to_snapshot (parse : String → Option Int)
    (resp : UsageApiResponse) : UsageSnapshot :=
  { UsageSnapshot.new with
    fetch_source := FetchSource.OAuth,
    primary := resp.five_hour.map fun w =>
      { used_percent := w.get_used_percent, window_minutes := some 300,
        resets_at := w.get_resets_at parse, reset_description := none },
    secondary := resp.seven_day.map fun w =>
      { used_percent := w.get_used_percent, window_minutes := some 10080,
        resets_at := w.get_resets_at parse, reset_description := none },
    tertiary := resp.seven_day_sonnet.map fun w =>
      { used_percent := w.get_used_percent, window_minutes := some 10080,
        resets_at := w.get_resets_at parse, reset_description := none },
    identity := resp.account.map fun acct =>
      { ProviderIdentity.new ProviderKind.Claude with
        account_email := acct.email,
        plan_name := acct.plan,
        account_organization := acct.organization,
        login_method := some LoginMethod.OAuth } }

/-- Sample OAuth payload from the module documentation and tests of
claude/api.rs: `five_hour.utilization = 6.0`, `seven_day.utilization =
35.0`, `seven_day_opus.utilization = 0.0`. -/
def sampleOAuthResponse : OAuthUsageResponse :=
  { five_hour := some
      { utilization := 6,
        resets_at := some "2025-11-04T04:59:59.943648+00:00" },
    seven_day := some
      { utilization := 35,
        resets_at := some "2025-11-06T03:59:59.943679+00:00" },
    seven_day_opus := some { utilization := 0, resets_at := none },
    seven_day_oauth_apps := none }

/-- C3: the sample OAuth payload round-trips to a snapshot whose primary
window reads 6 percent used over 300 minutes and whose secondary window
reads 35 percent used over 10080 minutes, for any timestamp parser. -/
theorem c3_sample_round_trip (parse : String → Option Int) :
    ((sampleOAuthResponse.into_usage_api_response.to_snapshot parse).primary.map
        fun w => (w.used_percent, w.window_minutes)) = some (6, some 300) ∧
    ((sampleOAuthResponse.into_usage_api_response.to_snapshot parse).secondary.map
        fun w => (w.used_percent, w.window_minutes)) = some (35, some 10080) := by
  exact ⟨rfl, rfl⟩

/-- C7: `to_snapshot` attaches an identity exactly when the response carries
account metadata, and the windows of the snapshot are populated from the
response windows independently of the account, so an account-less response
still yields a snapshot. -/
theorem c7_identity_iff_account (parse : String → Option Int)
    (resp : UsageApiResponse) :
    (resp.to_snapshot parse).identity.isSome = resp.account.isSome ∧
    (resp.to_snapshot parse).primary.isSome = resp.five_hour.isSome ∧
    (resp.to_snapshot parse).secondary.isSome = resp.seven_day.isSome ∧
    (resp.to_snapshot parse).tertiary.isSome = resp.seven_day_sonnet.isSome := by
  refine ⟨?_, ?_, ?_, ?_⟩ <;>
    simp [UsageApiResponse.to_snapshot, Option.isSome_map]

/-! ## Synthetic provider (synthetic/error.rs, strategies.rs, descriptor.rs) -/

/-- Embedding of `SyntheticError` from synthetic/error.rs. The type has no
missing-scope variant. -/
inductive SyntheticError where
  | ApiKeyNotFound
  | HttpError (msg : String)
  | ParseError (msg : String)
  | ApiError (msg : String)
  | AuthenticationFailed (msg : String)
deriving Repr, DecidableEq

/-- Embedding of the `Display` impl that thiserror derives from the
`#[error(...)]` attributes in synthetic/error.rs (what `e.to_string()`
yields). -/
def SyntheticError.message : SyntheticError → String
  | .ApiKeyNotFound => "API key not found (set SYNTHETIC_API_KEY env var)"
  | .HttpError m => "HTTP error: " ++ m
  | .ParseError m => "Parse error: " ++ m
  | .ApiError m => "API error: " ++ m
  | .AuthenticationFailed m => "Authentication failed: " ++ m

/-- Modelled from the spec: the exactobar-fetch crate is not under src/, so
the fetch error taxonomy is the closed list of spec section 7. -/
inductive FetchError where
  | AuthenticationFailed (msg : String)
  | MissingScope (msg : String)
  | ApiError (msg : String)
  | ParseError (msg : String)
  | InvalidResponse (msg : String)
  | CliMissing (msg : String)
  | Timeout (msg : String)
deriving Repr, DecidableEq

/-- Modelled from the spec: fatal versus recoverable classification of spec
section 7 — `AuthenticationFailed` and `MissingScope` stop the fallback
chain, everything else is recoverable (exactobar-fetch is not under
src/). -/
def FetchError.is_fatal : FetchError → Bool
  | .AuthenticationFailed _ => true
  | .MissingScope _ => true
  | _ => false

/-- Modelled from the spec: acquisition-method enumeration of spec section
4.1 (exactobar-fetch is not under src/). -/
inductive FetchKind where
  | Cli
  | OAuth
  | ApiKey
  | Web
deriving Repr, DecidableEq

/-- Modelled from the spec: a successful outcome wraps the snapshot plus
the strategy identifier and kind (spec section 3, `FetchResult::new` in
strategies.rs). -/
structure FetchResult where
  snapshot : UsageSnapshot
  strategy_id : String
  kind : FetchKind
deriving Repr, DecidableEq

/-- Embedding of `SyntheticApiStrategy::fetch` (synthetic/strategies.rs
lines 48-65), parameterized over the outcomes of its two external calls:
`api_key` is the result of `SyntheticApiClient::get_api_key`, and `quota`
is the result of `fetch_quota` followed by `to_snapshot` (the client lives
in synthetic/api.rs, which is not under src/, so its outcome is a
parameter). A key failure becomes `FetchError::AuthenticationFailed`; any
client failure becomes `FetchError::InvalidResponse` of the rendered
message; success wraps the snapshot with the strategy id "synthetic.api"
and kind ApiKey. -/
def syntheticApiStrategy_fetch (api_key : Except SyntheticError String)
    (quota : Except SyntheticError UsageSnapshot) :
    Except FetchError FetchResult :=
  match api_key with
  | .error e => .error (.AuthenticationFailed e.message)
  | .ok _ =>
    match quota with
    | .error e => .error (.InvalidResponse e.message)
    | .ok snap =>
      .ok { snapshot := snap, strategy_id := "synthetic.api",
            kind := FetchKind.ApiKey }

/-- C4 counterexample: with the API key present, a quota-client failure on
an HTTP 401 response is surfaced by the strategy as recoverable
`InvalidResponse`, not as the fatal `AuthenticationFailed` the claim
requires for 401. -/
theorem c4_counterexample :
    syntheticApiStrategy_fetch (.ok "sk-synthetic")
        (.error (SyntheticError.ApiError "HTTP 401 Unauthorized"))
      = .error (FetchError.InvalidResponse "API error: HTTP 401 Unauthorized") ∧
    FetchError.is_fatal
        (FetchError.InvalidResponse "API error: HTTP 401 Unauthorized") = false := by
  exact ⟨rfl, rfl⟩

/-- C4 (amended): the Synthetic strategy does not reproduce the OAuth
status-to-error mapping: every quota-client failure, whatever its HTTP
status or variant, is wrapped as recoverable `InvalidResponse`; the fatal
`AuthenticationFailed` arises only when the API key itself cannot be
obtained; no path produces `MissingScope` (the Synthetic error type has no
such variant). -/
theorem c4_synthetic_error_wrapping (key : String)
    (e ekey : SyntheticError) (quota : Except SyntheticError UsageSnapshot) :
    (syntheticApiStrategy_fetch (.ok key) (.error e)
        = .error (FetchError.InvalidResponse e.message) ∧
      FetchError.is_fatal (FetchError.InvalidResponse e.message) = false) ∧
    (syntheticApiStrategy_fetch (.error ekey) quota
        = .error (FetchError.AuthenticationFailed ekey.message) ∧
      FetchError.is_fatal (FetchError.AuthenticationFailed ekey.message) = true) := by
  exact ⟨⟨rfl, rfl⟩, ⟨rfl, rfl⟩⟩

/-! ## Synthetic pipeline construction (synthetic/descriptor.rs) -/

/-- Modelled from the spec: the per-provider source-mode permission flags
the settings expose (spec section 6; the exactobar-fetch crate holding
`SourceMode` is not under src/). -/
structure SourceMode where
  cli_allowed : Bool
  web_allowed : Bool
  oauth_allowed : Bool
  api_key_allowed : Bool
deriving Repr, DecidableEq

/-- Modelled from the spec: `SourceMode::allows_api_key` reads the API-key
permission flag (exactobar-fetch is not under src/). -/
def SourceMode.allows_api_key (m : SourceMode) : Bool :=
  m.api_key_allowed

/-- Modelled from the spec: the settings view the fetch context carries
(spec sections 4.1 and 6). -/
structure FetchSettings where
  source_mode : SourceMode
deriving Repr, DecidableEq

/-- Modelled from the spec: `FetchContext` bundles the user settings, the
provider identifier and shared transport configuration (spec section 4.1;
exactobar-fetch is not under src/). -/
structure FetchContext where
  settings : FetchSettings
  provider : ProviderKind
  timeout_secs : Nat
  user_agent : String
deriving Repr, DecidableEq

/-- Static description of a fetch strategy: its id, kind and priority as
exposed by the `FetchStrategy` impl. -/
structure StrategySpec where
  id : String
  kind : FetchKind
  priority : Nat
deriving Repr, DecidableEq

/-- The `SyntheticApiStrategy` as declared in synthetic/strategies.rs: id
"synthetic.api", kind ApiKey, priority 60. -/
def syntheticApiStrategySpec : StrategySpec :=
  { id := "synthetic.api", kind := FetchKind.ApiKey, priority := 60 }

/-- Embedding of `build_synthetic_pipeline` (synthetic/descriptor.rs lines
75-83): the pipeline holds the API-key strategy exactly when the settings
allow API-key mode, and nothing else. -/
def build_synthetic_pipeline (ctx : FetchContext) : List StrategySpec :=
  if ctx.settings.source_mode.allows_api_key then [syntheticApiStrategySpec]
  else []

/-- C5: the built pipeline contains the API-key strategy exactly when the
settings allow API-key mode; when API-key mode is disallowed the pipeline
contains no strategy of kind ApiKey at all. -/
theorem c5_pipeline_filtering (ctx : FetchContext) :
    (syntheticApiStrategySpec ∈ build_synthetic_pipeline ctx ↔
      ctx.settings.source_mode.allows_api_key = true) ∧
    (ctx.settings.source_mode.allows_api_key = false →
      ∀ s ∈ build_synthetic_pipeline ctx, s.kind ≠ FetchKind.ApiKey) := by
  constructor
  · constructor
    · intro hmem
      by_contra hno
      have hfalse : ctx.settings.source_mode.allows_api_key = false := by
        cases h : ctx.settings.source_mode.allows_api_key
        · rfl
        · exact absurd h hno
      simp [build_synthetic_pipeline, hfalse] at hmem
    · intro hallow
      simp [build_synthetic_pipeline, hallow]
  · intro hdeny s hs
    simp [build_synthetic_pipeline, hdeny] at hs

/-- Context allowing API-key mode, for the C5 witness. -/
def ctxAllowApiKey : FetchContext :=
  { settings := { source_mode :=
      { cli_allowed := false, web_allowed := false, oauth_allowed := false,
        api_key_allowed := true } },
    provider := ProviderKind.Synthetic, timeout_secs := 10,
    user_agent := "ExactoBar" }

/-- Context disallowing API-key mode, for the C5 witness. -/
def ctxDenyApiKey : FetchContext :=
  { settings := { source_mode :=
      { cli_allowed := false, web_allowed := false, oauth_allowed := false,
        api_key_allowed := false } },
    provider := ProviderKind.Synthetic, timeout_secs := 10,
    user_agent := "ExactoBar" }

/-- C5 witness: with API-key mode allowed the strategy is in the pipeline;
with it disallowed no ApiKey-kind strategy is. -/
theorem c5_pipeline_filtering_witness :
    syntheticApiStrategySpec ∈ build_synthetic_pipeline ctxAllowApiKey ∧
    (∀ s ∈ build_synthetic_pipeline ctxDenyApiKey, s.kind ≠ FetchKind.ApiKey) :=
  ⟨(c5_pipeline_filtering ctxAllowApiKey).1.mpr rfl,
   (c5_pipeline_filtering ctxDenyApiKey).2 rfl⟩

/-! ## Update checker guard (exactobar-app/src/updater.rs) -/

/-- Embedding of `UpdateCheckResult` from updater.rs. -/
inductive UpdateCheckResult where
  | UpdateAvailable (current latest release_url : String)
      (download_url : Option String) (release_notes : Option String)
  | UpToDate
  | Error (msg : String)
deriving Repr, DecidableEq

/-- Embedding of `check_for_updates` (updater.rs lines 66-78). The
`CHECKING_UPDATE` atomic flag is modelled sequentially at its
linearization point, the `swap(true)`: `checking` is the flag value when
the call performs its swap, and `net` is the outcome the underlying
network check would produce. The result triple is (returned result, flag
value once this call has returned, whether the underlying check ran). A
call that finds the flag set returns the busy error and runs nothing; a
call that finds it clear runs the check, returns its outcome — success or
failure alike — and clears the flag. -/
def check_for_updates (checking : Bool) (net : UpdateCheckResult) :
    UpdateCheckResult × Bool × Bool :=
  if checking then
    (UpdateCheckResult.Error "Update check already in progress", true, false)
  else
    (net, false, true)

/-- C6: a call overlapping an in-flight check is rejected with the busy
error and performs no network attempt; any completed call leaves the guard
clear — whether its check succeeded or failed — so the next call performs a
fresh attempt and returns its outcome. -/
theorem c6_update_guard (r₁ r₂ : UpdateCheckResult) :
    check_for_updates true r₁
      = (UpdateCheckResult.Error "Update check already in progress", true, false) ∧
    (check_for_updates false r₁).2.1 = false ∧
    check_for_updates (check_for_updates false r₁).2.1 r₂ = (r₂, false, true) := by
  exact ⟨rfl, rfl, rfl⟩

/-! ## Release-asset matching (exactobar-app/src/updater.rs) -/

/-- ASCII lowering of a character list; embeds the `to_lowercase` call of
updater.rs line 267 for the ASCII asset names the matcher inspects. -/
def lowerChars (l : List Char) : List Char :=
  l.map Char.toLower

/-- The pattern begins the list; embeds `str::starts_with` on character
lists. -/
def leadsWith : List Char → List Char → Bool
  | [], _ => true
  | _ :: _, [] => false
  | p :: ps, c :: cs => p == c && leadsWith ps cs

/-- The pattern occurs somewhere in the list; embeds `str::contains`. -/
def occursIn (pat : List Char) : List Char → Bool
  | [] => pat.isEmpty
  | c :: cs => leadsWith pat (c :: cs) || occursIn pat cs

/-- The pattern ends the list; embeds `str::ends_with`. -/
def trailsWith (pat s : List Char) : Bool :=
  leadsWith pat.reverse s.reverse

/-- One entry of the release "assets" array as updater.rs reads it: the
asset name (a missing or non-string name reads as "" via `unwrap_or`) and
the optional `browser_download_url` string. -/
structure ReleaseAsset where
  name : String
  browser_download_url : Option String
deriving Repr, DecidableEq

/-- Embedding of the asset predicate of `extract_macos_download_url`
(updater.rs lines 266-272): the lowercased name contains "macos" or
"darwin" or ends with ".dmg". -/
def asset_matches_macos (a : ReleaseAsset) : Bool :=
  let lname := lowerChars a.name.data
  occursIn "macos".data lname || occursIn "darwin".data lname ||
    trailsWith ".dmg".data lname

/-- Embedding of `extract_macos_download_url` (updater.rs lines 262-276):
find the first matching asset and return its download URL; none when no
asset matches (or when the first matching asset carries no URL string). -/
def extract_macos_download_url (assets : List ReleaseAsset) : Option String :=
  (assets.find? asset_matches_macos).bind fun a => a.browser_download_url

/-- Helper: `find?` over a split list picks the designated element when
nothing before it satisfies the predicate. -/
theorem find?_of_split {α : Type} (p : α → Bool) (l₁ l₂ : List α) (a : α)
    (h₁ : ∀ b ∈ l₁, p b = false) (ha : p a = true) :
    (l₁ ++ a :: l₂).find? p = some a := by
  induction l₁ with
  | nil => simp [List.find?_cons_of_pos, ha]
  | cons b bs ih =>
    have hb : p b = false := h₁ b (by simp)
    rw [List.cons_append, List.find?_cons_of_neg _ (by simp [hb])]
    exact ih fun x hx => h₁ x (by simp [hx])

/-- C8: `extract_macos_download_url` returns none when no asset name
matches ("macos"/"darwin" substring or ".dmg" suffix, case-insensitively),
and returns the download URL stored on the first matching asset
otherwise. -/
theorem c8_extract_first_match (assets : List ReleaseAsset) :
    ((∀ a ∈ assets, asset_matches_macos a = false) →
      extract_macos_download_url assets = none) ∧
    (∀ l₁ a l₂, assets = l₁ ++ a :: l₂ →
      (∀ b ∈ l₁, asset_matches_macos b = false) →
      asset_matches_macos a = true →
      extract_macos_download_url assets = a.browser_download_url) := by
  constructor
  · intro h
    have hnone : assets.find? asset_matches_macos = none :=
      List.find?_eq_none.mpr fun x hx => by simp [h x hx]
    simp [extract_macos_download_url, hnone]
  · intro l₁ a l₂ hsplit h₁ ha
    have hfind : assets.find? asset_matches_macos = some a := by
      rw [hsplit]; exact find?_of_split _ l₁ l₂ a h₁ ha
    simp [extract_macos_download_url, hfind]

/-- Release-asset lists from the updater.rs tests, reused for the C8
witness. -/
def sampleAssets : List ReleaseAsset :=
  [ { name := "exactobar-linux-x64.tar.gz",
      browser_download_url := some "https://example.com/linux" },
    { name := "exactobar-macos-arm64.dmg",
      browser_download_url := some "https://example.com/macos" } ]

/-- Release-asset list with no macOS asset, for the C8 witness. -/
def sampleAssetsNoMatch : List ReleaseAsset :=
  [ { name := "exactobar-windows-x64.exe",
      browser_download_url := some "https://example.com/windows" } ]

/-- C8 witness: the Linux asset is skipped and the macOS asset URL
returned; a Windows-only release yields none. -/
theorem c8_extract_first_match_witness :
    extract_macos_download_url sampleAssets = some "https://example.com/macos" ∧
    extract_macos_download_url sampleAssetsNoMatch = none := by
  constructor
  · exact (c8_extract_first_match sampleAssets).2
      [{ name := "exactobar-linux-x64.tar.gz",
         browser_download_url := some "https://example.com/linux" }]
      { name := "exactobar-macos-arm64.dmg",
        browser_download_url := some "https://example.com/macos" }
      [] rfl (by intro b hb; simp at hb; subst hb; decide) (by decide)
  · exact (c8_extract_first_match sampleAssetsNoMatch).1
      (by intro a ha; simp [sampleAssetsNoMatch] at ha; subst ha; decide)

/-! ## Credential store (exactobar-store/src/keychain.rs) -/

/-- Outcome of the keychain lookup `get_api_key` performs for one provider:
creating the entry can fail, and `get_password` can return the secret,
report no entry, or fail otherwise. -/
inductive KeychainLookup where
  | password (secret : String)
  | noEntry
  | failure (msg : String)
  | entryError (msg : String)
deriving Repr, DecidableEq

/-- Embedding of `get_api_key` (keychain.rs lines 89-104): a retrieved
non-empty secret is returned; an empty secret, a missing entry, and every
error path yield none. `store` records what the system keychain (an
external capability) answers per provider name. -/
def get_api_key (store : String → KeychainLookup) (provider : String) :
    Option String :=
  match store provider with
  | .password secret => if secret = "" then none else some secret
  | .noEntry => none
  | .failure _ => none
  | .entryError _ => none

/-- Embedding of `has_api_key` (keychain.rs lines 147-149). -/
def has_api_key (store : String → KeychainLookup) (provider : String) : Bool :=
  (get_api_key store provider).isSome

/-- C9: `get_api_key` returns none both when no entry exists and when the
stored secret is empty — the two cases are indistinguishable at this
interface — and `has_api_key` answers true exactly when `get_api_key`
returns a key. -/
theorem c9_empty_key_indistinguishable (store : String → KeychainLookup)
    (provider : String) :
    (store provider = KeychainLookup.noEntry →
      get_api_key store provider = none) ∧
    (store provider = KeychainLookup.password "" →
      get_api_key store provider = none) ∧
    (has_api_key store provider = true ↔
      ∃ k, get_api_key store provider = some k) := by
  refine ⟨?_, ?_, ?_⟩
  · intro h; simp [get_api_key, h]
  · intro h; simp [get_api_key, h]
  · simp [has_api_key, Option.isSome_iff_exists]

/-- C9 witness: concrete keychains with a missing entry, an empty secret,
and a present secret. -/
theorem c9_empty_key_indistinguishable_witness :
    get_api_key (fun _ => KeychainLookup.noEntry) "synthetic" = none ∧
    get_api_key (fun _ => KeychainLookup.password "") "synthetic" = none ∧
    has_api_key (fun _ => KeychainLookup.password "sk-test") "synthetic" = true := by
  refine ⟨(c9_empty_key_indistinguishable _ "synthetic").1 rfl,
          (c9_empty_key_indistinguishable _ "synthetic").2.1 rfl,
          (c9_empty_key_indistinguishable _ "synthetic").2.2.mpr ⟨"sk-test", ?_⟩⟩
  simp [get_api_key]

/-! ## Icon bar fill clamp (exactobar-app/src/icon/mod.rs) -/

/-- The `BAR_WIDTH` constant of icon/mod.rs. -/
def BAR_WIDTH : ℚ := 24

/-- Embedding of the fill-width computation of `IconRenderer::draw_bar`
(icon/mod.rs line 323): `(width * percent / 100.0).max(0.0).min(width)`.
`f32` values are embedded as rationals; Rust `f32::max` and `f32::min`
return the non-NaN operand, so even a NaN product lowers to the 0 bound,
matching the total order used here. -/
def draw_bar_fill_width (width percent : ℚ) : ℚ :=
  min (max (width * percent / 100) 0) width

/-- C10: for any percent — below 0 and above 100 included — the fill width
stays inside `[0, width]`, so the drawn fill never leaves the bar. -/
theorem c10_fill_width_clamped (width percent : ℚ) (hw : 0 ≤ width) :
    0 ≤ draw_bar_fill_width width percent ∧
    draw_bar_fill_width width percent ≤ width :=
  ⟨le_min (le_max_right _ _) hw, min_le_right _ _⟩

/-- C10 witness: the clamp evaluated at the source bar width for an
overflowing and a negative percentage. -/
theorem c10_fill_width_clamped_witness :
    (0 ≤ draw_bar_fill_width BAR_WIDTH 150 ∧
      draw_bar_fill_width BAR_WIDTH 150 ≤ BAR_WIDTH) ∧
    (0 ≤ draw_bar_fill_width BAR_WIDTH (-50) ∧
      draw_bar_fill_width BAR_WIDTH (-50) ≤ BAR_WIDTH) :=
  ⟨c10_fill_width_clamped BAR_WIDTH 150 (by norm_num [BAR_WIDTH]),
   c10_fill_width_clamped BAR_WIDTH (-50) (by norm_num [BAR_WIDTH])⟩

end Exactobar
